import Mathlib

/-!
Shallow embedding of the SkyLand city-builder simulation core
(constants catalog, tick engine, interaction handlers, token/governance
handlers) and verification of the spec claims about it.

Money, population, rates, token balances and prices are JS numbers in the
source; they are modelled as rationals (ℚ), which is exact for every
arithmetic operation the embedded code performs (+, -, *, /, floor, max)
on the magnitudes the claims are about. `Math.random()` is modelled as an
explicit parameter `r` with `0 ≤ r < 1`. Presentational side effects
(news items, the transaction log, sounds) are not part of the simulation
state and are omitted.
-/

namespace SkyLand

/-- Building type variant, from `types.ts` (as enumerated in `constants.ts`). -/
inductive BuildingType where
  | none
  | road
  | residential
  | commercial
  | industrial
  | park
  | school
  | hospital
  | entertainment
deriving DecidableEq, Repr

/-- Catalog entry: the fields of `BuildingConfig` the simulation reads
(cost, popGen, incomeGen); name/description/color are presentational. -/
structure BuildingConfig where
  cost : ℚ
  popGen : ℚ
  incomeGen : ℚ
deriving DecidableEq, Repr

/-- The static `BUILDINGS` catalog from `constants.ts`. -/
def BUILDINGS : BuildingType → BuildingConfig
  | .none => { cost := 0, popGen := 0, incomeGen := 0 }
  | .road => { cost := 10, popGen := 0, incomeGen := 0 }
  | .residential => { cost := 100, popGen := 5, incomeGen := 0 }
  | .commercial => { cost := 200, popGen := 0, incomeGen := 15 }
  | .industrial => { cost := 400, popGen := 0, incomeGen := 40 }
  | .park => { cost := 50, popGen := 1, incomeGen := 0 }
  | .school => { cost := 500, popGen := 10, incomeGen := -5 }
  | .hospital => { cost := 800, popGen := 15, incomeGen := -10 }
  | .entertainment => { cost := 600, popGen := 2, incomeGen := 25 }

/-- `GRID_SIZE` from `constants.ts`. -/
def GRID_SIZE : ℕ := 15

/-- `INITIAL_MONEY` from `constants.ts`. -/
def INITIAL_MONEY : ℚ := 1000

/-- A tile record `{ x, y, buildingType, level }`. -/
structure Tile where
  x : ℕ
  y : ℕ
  buildingType : BuildingType
  level : ℕ
deriving DecidableEq, Repr

/-- The grid, a row-major 2D collection of tiles (indexed `grid[y][x]`). -/
abbrev Grid := List (List Tile)

/-- The TS code reads `tile.level || 1`: a 0 (or missing) level counts as 1. -/
def levelOrOne (l : ℕ) : ℕ := if l = 0 then 1 else l

/-- `CityStats`: `{ money, population, day }`. -/
structure CityStats where
  money : ℚ
  population : ℚ
  day : ℕ
deriving DecidableEq, Repr

/-- The DAO modifier set `gameModifiers`: `{ taxRate, growthRate }`. -/
structure Modifiers where
  taxRate : ℚ
  growthRate : ℚ
deriving DecidableEq, Repr

/-- `Web3State` fields the simulation reads and writes.  The `address`
string is presentational; only its presence matters, modelled as a flag. -/
structure Web3State where
  isConnected : Bool
  hasAddress : Bool
  skyBalance : ℚ
  stakedSky : ℚ
  skyPrice : ℚ
  blockNumber : ℕ
deriving DecidableEq, Repr

/-- Goal target kinds from `AIGoal.targetType`. -/
inductive TargetType where
  | money
  | population
  | building_count
deriving DecidableEq, Repr

/-- `AIGoal` fields the tracker reads (description text omitted). -/
structure AIGoal where
  targetType : TargetType
  targetValue : ℚ
  buildingType : Option BuildingType
  reward : ℚ
  completed : Bool
deriving DecidableEq, Repr

/-- Governance proposal option effect kinds; `other` stands for any
effect string not matched by the four `if`s in `handleVote`. -/
inductive EffectType where
  | tax_break
  | population_boom
  | austerity
  | festival
  | other
deriving DecidableEq, Repr

-- ---------------------------------------------------------------------
-- Tick engine (the game-loop interval body, App lines 268-346)
-- ---------------------------------------------------------------------

/-- Step 1a of the tick: accumulate `dailyIncome += config.incomeGen * level`
over every occupied tile of the flattened grid. -/
def dailyIncome (tiles : List Tile) : ℚ :=
  tiles.foldl
    (fun acc t =>
      if t.buildingType = BuildingType.none then acc
      else acc + (BUILDINGS t.buildingType).incomeGen * ((levelOrOne t.level : ℕ) : ℚ))
    0

/-- Step 1b of the tick: accumulate `dailyPopGrowth += config.popGen * level`
over every occupied tile. -/
def dailyPopGrowth (tiles : List Tile) : ℚ :=
  tiles.foldl
    (fun acc t =>
      if t.buildingType = BuildingType.none then acc
      else acc + (BUILDINGS t.buildingType).popGen * ((levelOrOne t.level : ℕ) : ℚ))
    0

/-- Step 1c: the per-type occupied-tile tally `buildingCounts` (only
occupied tiles are counted, so the `none` count is always 0). -/
def buildingCount (tiles : List Tile) (b : BuildingType) : ℕ :=
  if b = BuildingType.none then 0
  else (tiles.filter (fun t => t.buildingType = b)).length

/-- Housing capacity: `housingCap += 50 * (tile.level || 1)` over
Residential tiles. -/
def housingCapOf (tiles : List Tile) : ℚ :=
  tiles.foldl
    (fun acc t =>
      if t.buildingType = BuildingType.residential
      then acc + 50 * ((levelOrOne t.level : ℕ) : ℚ)
      else acc)
    0

/-- Income after the DAO tax-rate modifier. -/
def tickIncome (tiles : List Tile) (mods : Modifiers) : ℚ :=
  dailyIncome tiles * mods.taxRate

/-- Population growth after the DAO growth-rate modifier and, when
`stakedSky > 0`, the staking bonus `* (1 + staked / 1000)`. -/
def tickPopGrowth (tiles : List Tile) (mods : Modifiers) (staked : ℚ) : ℚ :=
  let g := dailyPopGrowth tiles * mods.growthRate
  if staked > 0 then g * (1 + staked / 1000) else g

/-- The stats update of one tick (`setStats` updater, App lines 307-316):
population is clamped at `housingCap`, decays by 5 (floored at 0) when
`housingCap = 0` and the prior population is positive; money gains the
tick income unclamped; day advances by one. -/
def tickStats (tiles : List Tile) (mods : Modifiers) (staked : ℚ)
    (prev : CityStats) : CityStats :=
  let housingCap := housingCapOf tiles
  let newPop0 := prev.population + tickPopGrowth tiles mods staked
  let newPop1 := if newPop0 > housingCap then housingCap else newPop0
  let newPop :=
    if housingCap = 0 ∧ prev.population > 0
    then max 0 (prev.population - 5)
    else newPop1
  { money := prev.money + tickIncome tiles mods
    population := newPop
    day := prev.day + 1 }

/-- The goal-completion test of the tick (App lines 321-326): `>=`
comparison of the fresh stats (or the per-type tally) against the target. -/
def goalMet (newStats : CityStats) (counts : BuildingType → ℕ) (g : AIGoal) : Bool :=
  match g.targetType with
  | .money => decide (g.targetValue ≤ newStats.money)
  | .population => decide (g.targetValue ≤ newStats.population)
  | .building_count =>
    match g.buildingType with
    | some b => decide ((g.targetValue : ℚ) ≤ ((counts b : ℕ) : ℚ))
    | Option.none => false

/-- The goal tracker step of the tick (App lines 318-331): the whole
check is guarded by `aiEnabledRef.current && goal && !goal.completed`;
on a met target the goal is replaced by `{...goal, completed: true}`. -/
def tickGoal (aiEnabled : Bool) (newStats : CityStats)
    (counts : BuildingType → ℕ) (goal : Option AIGoal) : Option AIGoal :=
  match goal with
  | Option.none => Option.none
  | some g =>
    if aiEnabled && !g.completed && goalMet newStats counts g
    then some { g with completed := true }
    else some g

/-- The web3 update of the tick (App lines 336-346), run only when
connected: mining credits `(population / 100) * 0.1` from the stats ref
(which still holds the previous tick's stats when the interval body
runs), the price takes a random step `(r - 0.5) * 2` floored at 10, and
the block number increments. -/
def web3Tick (prevPop : ℚ) (r : ℚ) (w : Web3State) : Web3State :=
  if w.isConnected then
    { w with
      skyBalance := w.skyBalance + (prevPop / 100) * (1 / 10)
      skyPrice := max 10 (w.skyPrice + (r - 1 / 2) * 2)
      blockNumber := w.blockNumber + 1 }
  else w

/-- Whole-app simulation state touched by one tick. -/
structure AppState where
  grid : Grid
  stats : CityStats
  mods : Modifiers
  goal : Option AIGoal
  aiEnabled : Bool
  web3 : Web3State

/-- One full tick of the game loop: stats update from the flattened grid,
goal check against the fresh stats, then the web3 update, which reads
`statsRef.current.population` — still the PREVIOUS tick's population,
because the ref is only re-synced after the React state update renders. -/
def appTick (r : ℚ) (s : AppState) : AppState :=
  let tiles := s.grid.flatten
  let newStats := tickStats tiles s.mods s.web3.stakedSky s.stats
  let newGoal := tickGoal s.aiEnabled newStats (buildingCount tiles) s.goal
  let newWeb3 := web3Tick s.stats.population r s.web3
  { s with stats := newStats, goal := newGoal, web3 := newWeb3 }

-- ---------------------------------------------------------------------
-- Interaction handlers
-- ---------------------------------------------------------------------

/-- Read `grid[y][x]`. -/
def getTile (g : Grid) (x y : ℕ) : Option Tile :=
  match (g : List (List Tile))[y]? with
  | some row => row[x]?
  | Option.none => Option.none

/-- Write `grid[y][x]` (the source copies every row and assigns one cell). -/
def setTile (g : Grid) (x y : ℕ) (t : Tile) : Grid :=
  match (g : List (List Tile))[y]? with
  | some row => (g : List (List Tile)).set y (row.set x t)
  | Option.none => g

/-- The state read and written by `handleTileClick` and `handleUpgrade`
(news items are presentational and omitted). -/
structure ClickState where
  grid : Grid
  stats : CityStats
  selectedTilePos : Option (ℕ × ℕ)

/-- `handleTileClick` (App lines 360-423), for a started game with the
coordinate inside the `GRID_SIZE` bounds check.  Branches, in source
order: selecting an occupied non-Road tile with a non-bulldoze tool;
bulldozing (demolition cost 5, fund-checked, resets the tile to
`{None, level: 1}`, deselects the demolished tile if selected); placing
on an empty tile (fund-checked against the catalog cost, clears the
selection).  A missing tile (out-of-bounds list access) is a no-op. -/
def handleTileClick (tool : BuildingType) (x y : ℕ) (s : ClickState) : ClickState :=
  if x ≥ GRID_SIZE ∨ y ≥ GRID_SIZE then s
  else
    match getTile s.grid x y with
    | Option.none => s
    | some currentTile =>
      if tool ≠ BuildingType.none ∧ currentTile.buildingType ≠ BuildingType.none ∧
          currentTile.buildingType ≠ BuildingType.road then
        { s with selectedTilePos := some (x, y) }
      else if tool = BuildingType.none then
        if currentTile.buildingType ≠ BuildingType.none then
          if s.stats.money ≥ 5 then
            { grid := setTile s.grid x y
                { currentTile with buildingType := BuildingType.none, level := 1 }
              stats := { s.stats with money := s.stats.money - 5 }
              selectedTilePos :=
                if s.selectedTilePos = some (x, y) then Option.none
                else s.selectedTilePos }
          else s
        else s
      else
        if currentTile.buildingType = BuildingType.none then
          if s.stats.money ≥ (BUILDINGS tool).cost then
            { grid := setTile s.grid x y
                { currentTile with buildingType := tool, level := 1 }
              stats := { s.stats with money := s.stats.money - (BUILDINGS tool).cost }
              selectedTilePos := Option.none }
          else s
        else s

/-- Upgrade cost: `Math.floor(config.cost * Math.pow(1.5, currentLevel))`. -/
def upgradeCost (cost : ℚ) (currentLevel : ℕ) : ℤ :=
  Int.floor (cost * (3 / 2 : ℚ) ^ currentLevel)

/-- `handleUpgrade` (App lines 425-446): reads the selected tile, computes
the level-scaled cost, and — with no occupancy check — deducts it and
increments the level whenever funds suffice. -/
def handleUpgrade (s : ClickState) : ClickState :=
  match s.selectedTilePos with
  | Option.none => s
  | some (x, y) =>
    match getTile s.grid x y with
    | Option.none => s
    | some tile =>
      let config := BUILDINGS tile.buildingType
      let currentLevel := levelOrOne tile.level
      let cost : ℚ := ((upgradeCost config.cost currentLevel : ℤ) : ℚ)
      if s.stats.money ≥ cost then
        { s with
          stats := { s.stats with money := s.stats.money - cost }
          grid := setTile s.grid x y { tile with level := currentLevel + 1 } }
      else s

-- ---------------------------------------------------------------------
-- Web3 and governance handlers
-- ---------------------------------------------------------------------

/-- `handleStake` (App lines 505-514): moves `amount` from `skyBalance`
to `stakedSky` when `skyBalance >= amount`, else nothing. -/
def handleStake (amount : ℚ) (w : Web3State) : Web3State :=
  if w.skyBalance ≥ amount then
    { w with
      skyBalance := w.skyBalance - amount
      stakedSky := w.stakedSky + amount }
  else w

/-- `handleUnstake` (App lines 516-525): moves `amount` from `stakedSky`
back to `skyBalance` when `stakedSky >= amount`, else nothing. -/
def handleUnstake (amount : ℚ) (w : Web3State) : Web3State :=
  if w.stakedSky ≥ amount then
    { w with
      skyBalance := w.skyBalance + amount
      stakedSky := w.stakedSky - amount }
  else w

/-- State touched by a governance vote: the treasury, the modifier set
and the active-proposal slot, the proposal abstracted to its options'
effect kinds. -/
structure VoteState where
  stats : CityStats
  mods : Modifiers
  activeProposal : Option (List EffectType)
deriving Repr

/-- `handleVote` (App lines 538-558): no active proposal is an early
no-op; otherwise the chosen option's effect is applied (tax_break →
taxRate 1.2; population_boom → growthRate 1.5; austerity → taxRate 0.8
and growthRate 0.8; festival → money -= 500 and growthRate 2.0; any
other effect string matches no branch) and the proposal slot is cleared.
An out-of-range `optionIndex` reads `undefined.label` in the source and
throws, modelled as `Option.none`. -/
def handleVote (optionIndex : ℕ) (s : VoteState) : Option VoteState :=
  match s.activeProposal with
  | Option.none => some s
  | some options =>
    match options[optionIndex]? with
    | Option.none => Option.none
    | some choice =>
      let s1 :=
        match choice with
        | .tax_break => { s with mods := { s.mods with taxRate := 12 / 10 } }
        | .population_boom => { s with mods := { s.mods with growthRate := 15 / 10 } }
        | .austerity => { s with mods := { taxRate := 8 / 10, growthRate := 8 / 10 } }
        | .festival =>
          { s with
            stats := { s.stats with money := s.stats.money - 500 }
            mods := { s.mods with growthRate := 2 } }
        | .other => s
      some { s1 with activeProposal := Option.none }

-- ---------------------------------------------------------------------
-- Spec-side formulations (from the spec's words, for comparison with
-- the embedded tick code)
-- ---------------------------------------------------------------------

/-- Spec formulation of step 1a: `income += incomeGen(type) * level`
summed over occupied tiles. -/
def incomeSumSpec (tiles : List Tile) : ℚ :=
  (tiles.map (fun t =>
    if t.buildingType = BuildingType.none then 0
    else (BUILDINGS t.buildingType).incomeGen * ((t.level : ℕ) : ℚ))).sum

/-- Spec formulation of step 1b: `popGrowth += popGen(type) * level`
summed over occupied tiles. -/
def popSumSpec (tiles : List Tile) : ℚ :=
  (tiles.map (fun t =>
    if t.buildingType = BuildingType.none then 0
    else (BUILDINGS t.buildingType).popGen * ((t.level : ℕ) : ℚ))).sum

/-- Spec formulation of step 4: `housingCap = Σ over Residential tiles of
(50 * level)`. -/
def housingCapSpec (tiles : List Tile) : ℚ :=
  ((tiles.filter (fun t => t.buildingType = BuildingType.residential)).map
    (fun t => 50 * ((t.level : ℕ) : ℚ))).sum

-- ---------------------------------------------------------------------
-- Helper lemmas
-- ---------------------------------------------------------------------

theorem foldl_skip_none (f : Tile → ℚ) :
    ∀ (tiles : List Tile) (acc : ℚ),
      tiles.foldl
        (fun a t => if t.buildingType = BuildingType.none then a else a + f t) acc
      = acc + (tiles.map (fun t =>
          if t.buildingType = BuildingType.none then 0 else f t)).sum := by
  intro tiles
  induction tiles with
  | nil => intro acc; simp
  | cons t ts ih =>
    intro acc
    by_cases h : t.buildingType = BuildingType.none <;>
      simp [h, ih, add_assoc]

theorem foldl_add_resid (f : Tile → ℚ) :
    ∀ (tiles : List Tile) (acc : ℚ),
      tiles.foldl
        (fun a t => if t.buildingType = BuildingType.residential then a + f t else a) acc
      = acc + (tiles.map (fun t =>
          if t.buildingType = BuildingType.residential then f t else 0)).sum := by
  intro tiles
  induction tiles with
  | nil => intro acc; simp
  | cons t ts ih =>
    intro acc
    by_cases h : t.buildingType = BuildingType.residential <;>
      simp [h, ih, add_assoc]

theorem dailyIncome_eq_sum (tiles : List Tile) :
    dailyIncome tiles
      = (tiles.map (fun t =>
          if t.buildingType = BuildingType.none then 0
          else (BUILDINGS t.buildingType).incomeGen * ((levelOrOne t.level : ℕ) : ℚ))).sum := by
  simpa [dailyIncome] using
    foldl_skip_none
      (fun t => (BUILDINGS t.buildingType).incomeGen * ((levelOrOne t.level : ℕ) : ℚ))
      tiles 0

theorem dailyPopGrowth_eq_sum (tiles : List Tile) :
    dailyPopGrowth tiles
      = (tiles.map (fun t =>
          if t.buildingType = BuildingType.none then 0
          else (BUILDINGS t.buildingType).popGen * ((levelOrOne t.level : ℕ) : ℚ))).sum := by
  simpa [dailyPopGrowth] using
    foldl_skip_none
      (fun t => (BUILDINGS t.buildingType).popGen * ((levelOrOne t.level : ℕ) : ℚ))
      tiles 0

theorem housingCapOf_eq_sum (tiles : List Tile) :
    housingCapOf tiles
      = (tiles.map (fun t =>
          if t.buildingType = BuildingType.residential
          then 50 * ((levelOrOne t.level : ℕ) : ℚ) else 0)).sum := by
  simpa [housingCapOf] using
    foldl_add_resid (fun t => 50 * ((levelOrOne t.level : ℕ) : ℚ)) tiles 0

theorem levelOrOne_of_ne_zero {l : ℕ} (h : l ≠ 0) : levelOrOne l = l := by
  simp [levelOrOne, h]

theorem dailyIncome_eq_spec (tiles : List Tile) (hlev : ∀ t ∈ tiles, t.level ≠ 0) :
    dailyIncome tiles = incomeSumSpec tiles := by
  rw [dailyIncome_eq_sum, incomeSumSpec]
  refine congrArg List.sum (List.map_congr_left ?_)
  intro t ht
  rw [levelOrOne_of_ne_zero (hlev t ht)]

theorem dailyPopGrowth_eq_spec (tiles : List Tile) (hlev : ∀ t ∈ tiles, t.level ≠ 0) :
    dailyPopGrowth tiles = popSumSpec tiles := by
  rw [dailyPopGrowth_eq_sum, popSumSpec]
  refine congrArg List.sum (List.map_congr_left ?_)
  intro t ht
  rw [levelOrOne_of_ne_zero (hlev t ht)]

theorem housingCapOf_eq_spec (tiles : List Tile) (hlev : ∀ t ∈ tiles, t.level ≠ 0) :
    housingCapOf tiles = housingCapSpec tiles := by
  rw [housingCapOf_eq_sum, housingCapSpec]
  induction tiles with
  | nil => simp
  | cons t ts ih =>
    have ht : t.level ≠ 0 := hlev t (List.mem_cons_self t ts)
    have hts : ∀ u ∈ ts, u.level ≠ 0 := fun u hu => hlev u (List.mem_cons_of_mem t hu)
    by_cases h : t.buildingType = BuildingType.residential <;>
      simp [h, ih hts, levelOrOne_of_ne_zero ht]

-- ---------------------------------------------------------------------
-- Concrete states used by counterexamples and witnesses
-- ---------------------------------------------------------------------

/-- The all-empty initial grid built by `createInitialGrid`. -/
def createInitialGrid : Grid :=
  (List.range GRID_SIZE).map (fun y =>
    (List.range GRID_SIZE).map (fun x =>
      { x := x, y := y, buildingType := BuildingType.none, level := 1 }))

def mods1 : Modifiers := { taxRate := 1, growthRate := 1 }

def schoolTile : Tile :=
  { x := 0, y := 0, buildingType := BuildingType.school, level := 1 }

def residTile : Tile :=
  { x := 0, y := 0, buildingType := BuildingType.residential, level := 1 }

def stats1000 : CityStats := { money := 1000, population := 0, day := 1 }

def statsPop10 : CityStats := { money := 0, population := 10, day := 1 }

-- ---------------------------------------------------------------------
-- C1
-- ---------------------------------------------------------------------

/-- C1 (counterexample): the claim fails on grids containing a School.
`BUILDINGS` gives School `incomeGen = -5`, so a grid whose only occupied
tile is a School, with the default modifiers and no spend action, loses
money through the tick's passive income computation alone (1000 → 995). -/
theorem c1_counterexample :
    (tickStats [schoolTile] mods1 0 stats1000).money < stats1000.money := by
  have h : (tickStats [schoolTile] mods1 0 stats1000).money
      = stats1000.money + dailyIncome [schoolTile] * mods1.taxRate := rfl
  rw [h]
  norm_num +decide [dailyIncome, schoolTile, BUILDINGS, levelOrOne, mods1, stats1000]

/-- C1 (amended): passive income never decreases money PROVIDED no
occupied tile is a School or Hospital (the only catalog entries with
negative `incomeGen`) and the tax-rate modifier is nonnegative; grids
containing School or Hospital tiles can lose money passively. -/
theorem c1_amended (tiles : List Tile) (mods : Modifiers) (staked : ℚ)
    (prev : CityStats)
    (hns : ∀ t ∈ tiles, t.buildingType ≠ BuildingType.school ∧
      t.buildingType ≠ BuildingType.hospital)
    (htax : 0 ≤ mods.taxRate) :
    prev.money ≤ (tickStats tiles mods staked prev).money := by
  have hinc : 0 ≤ dailyIncome tiles := by
    rw [dailyIncome_eq_sum]
    apply List.sum_nonneg
    intro q hq
    simp only [List.mem_map] at hq
    obtain ⟨t, ht, rfl⟩ := hq
    by_cases h : t.buildingType = BuildingType.none
    · simp [h]
    · rw [if_neg h]
      have hgen : 0 ≤ (BUILDINGS t.buildingType).incomeGen := by
        have h2 := hns t ht
        cases hb : t.buildingType <;> simp_all [BUILDINGS]
      exact mul_nonneg hgen (by positivity)
  have hmoney : (tickStats tiles mods staked prev).money
      = prev.money + dailyIncome tiles * mods.taxRate := rfl
  nlinarith [mul_nonneg hinc htax]

/-- C1 witness: the amended theorem applied to a one-Residential grid. -/
theorem c1_amended_witness :
    stats1000.money ≤ (tickStats [residTile] mods1 0 stats1000).money :=
  c1_amended [residTile] mods1 0 stats1000 (by decide) (by decide)

-- ---------------------------------------------------------------------
-- C2
-- ---------------------------------------------------------------------

theorem initialGrid_all_none :
    ∀ t ∈ createInitialGrid.flatten, t.buildingType = BuildingType.none := by
  intro t ht
  simp only [createInitialGrid, List.mem_flatten, List.mem_map, List.mem_range] at ht
  obtain ⟨row, ⟨y, hy, rfl⟩, hrow⟩ := ht
  obtain ⟨x, hx, rfl⟩ := by simpa using hrow
  rfl

theorem initialGrid_housingCap : housingCapOf createInitialGrid.flatten = 0 := by
  rw [housingCapOf_eq_sum]
  apply List.sum_eq_zero
  intro q hq
  simp only [List.mem_map] at hq
  obtain ⟨t, ht, rfl⟩ := hq
  rw [initialGrid_all_none t ht]
  simp

/-- C2 (counterexample): on the initial (all-empty) grid `housingCap = 0`;
with prior population 10 the decay exception sets the new population to
5, which is NOT ≤ the housing cap 0 — the claim's first conjunct fails. -/
theorem c2_counterexample :
    housingCapOf createInitialGrid.flatten = 0 ∧
    ¬ (tickStats createInitialGrid.flatten mods1 0 statsPop10).population
        ≤ housingCapOf createInitialGrid.flatten := by
  refine ⟨initialGrid_housingCap, ?_⟩
  have hp : (tickStats createInitialGrid.flatten mods1 0 statsPop10).population = 5 := by
    simp only [tickStats]
    rw [if_pos ⟨initialGrid_housingCap, by norm_num [statsPop10]⟩]
    norm_num [statsPop10]
  rw [hp, initialGrid_housingCap]
  norm_num

/-- C2 (amended): when `housingCap = 0` and the prior population is
positive, the new population is `max 0 (prior - 5)` (which can exceed
the housing cap); in every other case the new population is ≤ the
housing cap. -/
theorem c2_amended (tiles : List Tile) (mods : Modifiers) (staked : ℚ)
    (prev : CityStats) :
    (housingCapOf tiles = 0 ∧ prev.population > 0 →
      (tickStats tiles mods staked prev).population
        = max 0 (prev.population - 5)) ∧
    (¬ (housingCapOf tiles = 0 ∧ prev.population > 0) →
      (tickStats tiles mods staked prev).population ≤ housingCapOf tiles) := by
  constructor
  · intro h
    show (if housingCapOf tiles = 0 ∧ prev.population > 0 then _ else _) = _
    rw [if_pos h]
  · intro h
    show (if housingCapOf tiles = 0 ∧ prev.population > 0 then _ else _) ≤ _
    rw [if_neg h]
    split_ifs with h2
    · exact le_refl _
    · exact le_of_not_lt h2

/-- C2 witness: the amended theorem applied to the empty-grid,
population-10 state, yielding the decayed population 5. -/
theorem c2_amended_witness :
    (tickStats createInitialGrid.flatten mods1 0 statsPop10).population
      = max 0 (statsPop10.population - 5) :=
  (c2_amended createInitialGrid.flatten mods1 0 statsPop10).1
    ⟨initialGrid_housingCap, by norm_num [statsPop10]⟩

-- ---------------------------------------------------------------------
-- C3
-- ---------------------------------------------------------------------

/-- C3: the tick computes its deltas in the specified order — per
occupied tile `income += incomeGen * level` and `popGrowth += popGen *
level`; income is then multiplied by the tax rate and popGrowth by the
growth rate; exactly when `staked > 0`, popGrowth is further multiplied
by `1 + staked/1000`; `housingCap` is the sum of `50 * level` over
Residential tiles; and `day` increments by exactly 1.  (Stated for grids
whose tiles all have nonzero level, as the source reads `level || 1`.) -/
theorem c3_tick_algorithm (tiles : List Tile) (mods : Modifiers) (staked : ℚ)
    (prev : CityStats) (hlev : ∀ t ∈ tiles, t.level ≠ 0) :
    (tickStats tiles mods staked prev).day = prev.day + 1 ∧
    (tickStats tiles mods staked prev).money
      = prev.money + incomeSumSpec tiles * mods.taxRate ∧
    housingCapOf tiles = housingCapSpec tiles ∧
    (staked > 0 →
      tickPopGrowth tiles mods staked
        = popSumSpec tiles * mods.growthRate * (1 + staked / 1000)) ∧
    (¬ staked > 0 →
      tickPopGrowth tiles mods staked = popSumSpec tiles * mods.growthRate) := by
  refine ⟨rfl, ?_, housingCapOf_eq_spec tiles hlev, ?_, ?_⟩
  · show prev.money + tickIncome tiles mods = _
    rw [tickIncome, dailyIncome_eq_spec tiles hlev]
  · intro h
    rw [tickPopGrowth, dailyPopGrowth_eq_spec tiles hlev]
    simp [h]
  · intro h
    rw [tickPopGrowth, dailyPopGrowth_eq_spec tiles hlev]
    simp [h]

/-- C3 witness: the characterization applied to a two-tile grid
(level-2 Commercial, level-1 Residential) with staking active. -/
theorem c3_tick_algorithm_witness :
    (tickStats [{ x := 0, y := 0, buildingType := BuildingType.commercial, level := 2 },
        residTile] mods1 100 stats1000).money
      = stats1000.money
        + incomeSumSpec [{ x := 0, y := 0, buildingType := BuildingType.commercial, level := 2 },
            residTile] * mods1.taxRate :=
  (c3_tick_algorithm
    [{ x := 0, y := 0, buildingType := BuildingType.commercial, level := 2 }, residTile]
    mods1 100 stats1000 (by decide)).2.1

-- ---------------------------------------------------------------------
-- C4
-- ---------------------------------------------------------------------

def goalMoney0 : AIGoal :=
  { targetType := TargetType.money, targetValue := 0,
    buildingType := Option.none, reward := 300, completed := false }

def counts0 : BuildingType → ℕ := fun _ => 0

/-- C4 (counterexample): the goal check in the game loop is guarded by
`aiEnabledRef.current && goal && !goal.completed`, so with AI generation
disabled an existing, met, non-completed goal is NOT evaluated: it stays
un-completed, contradicting the claim that only new-goal requests are
suppressed. -/
theorem c4_counterexample :
    goalMet stats1000 counts0 goalMoney0 = true ∧
    tickGoal false stats1000 counts0 (some goalMoney0) = some goalMoney0 := by
  constructor
  · show decide (goalMoney0.targetValue ≤ stats1000.money) = true
    rw [decide_eq_true_eq]
    norm_num [goalMoney0, stats1000]
  · rfl

/-- C4 (amended): goal evaluation is itself gated on the AI toggle: with
AI disabled the tracker leaves any existing goal untouched (met or not);
with AI enabled, a non-completed goal whose target is met (>=) flips to
`completed = true` and is otherwise unmodified. -/
theorem c4_amended (st : CityStats) (counts : BuildingType → ℕ) (g : AIGoal)
    (hg : g.completed = false) :
    tickGoal false st counts (some g) = some g ∧
    (goalMet st counts g = true →
      tickGoal true st counts (some g) = some { g with completed := true }) := by
  constructor
  · rfl
  · intro hmet
    simp [tickGoal, hg, hmet]

/-- C4 witness: with AI enabled the same met goal does flip. -/
theorem c4_amended_witness :
    tickGoal true stats1000 counts0 (some goalMoney0)
      = some { goalMoney0 with completed := true } :=
  (c4_amended stats1000 counts0 goalMoney0 rfl).2
    (by
      show decide (goalMoney0.targetValue ≤ stats1000.money) = true
      rw [decide_eq_true_eq]
      norm_num [goalMoney0, stats1000])

-- ---------------------------------------------------------------------
-- C5
-- ---------------------------------------------------------------------

theorem getTile_setTile (g : Grid) (x y : ℕ) (t : Tile)
    (h : (getTile g x y).isSome) :
    getTile (setTile g x y t) x y = some t := by
  unfold getTile setTile
  unfold getTile at h
  cases hy : (g : List (List Tile))[y]? with
  | none => rw [hy] at h; simp at h
  | some row =>
    rw [hy] at h
    cases hx : row[x]? with
    | none => simp [hx] at h
    | some tile =>
      have hylen : y < g.length := (List.getElem?_eq_some.mp hy).1
      have hxlen : x < row.length := (List.getElem?_eq_some.mp hx).1
      simp [hy, List.getElem?_set_eq_of_lt, hylen, hxlen]

def emptyTile00 : Tile :=
  { x := 0, y := 0, buildingType := BuildingType.none, level := 1 }

def sEmptySel : ClickState :=
  { grid := [[emptyTile00]]
    stats := { money := 0, population := 0, day := 1 }
    selectedTilePos := some (0, 0) }

/-- C5 (counterexample): `handleUpgrade` performs no occupancy check.
With the selection on an EMPTY tile and money 0, the claim predicts a
rejected action with no state change; the code instead passes the fund
check (cost `floor(0 * 1.5^1) = 0`) and increments the empty tile's
level from 1 to 2. -/
theorem c5_counterexample :
    getTile (handleUpgrade sEmptySel).grid 0 0
      = some { emptyTile00 with level := 2 } := by
  have hz : upgradeCost (BUILDINGS BuildingType.none).cost 1 = 0 := by
    norm_num [upgradeCost, BUILDINGS]
  simp only [handleUpgrade, sEmptySel]
  norm_num [hz, getTile, setTile, emptyTile00, levelOrOne]

/-- C5 (amended): `handleUpgrade` does not check occupancy. For any
selected tile (occupied or not) the action is rejected with no state
change unless `money ≥ floor(cost(type) * 1.5^currentLevel)`; on success
it deducts exactly that cost and increments the tile's level by 1,
leaving the buildingType unchanged.  For a level-2 Residential the cost
is `floor(100 * 1.5^2) = 225`.  For an occupied tile this matches the
claim; for an empty selected tile the cost is 0 and the "upgrade"
succeeds whenever money ≥ 0. -/
theorem c5_amended (s : ClickState) (x y : ℕ) (tile : Tile)
    (hsel : s.selectedTilePos = some (x, y))
    (ht : getTile s.grid x y = some tile) :
    (s.stats.money <
        ((upgradeCost (BUILDINGS tile.buildingType).cost (levelOrOne tile.level) : ℤ) : ℚ) →
      handleUpgrade s = s) ∧
    (((upgradeCost (BUILDINGS tile.buildingType).cost (levelOrOne tile.level) : ℤ) : ℚ)
        ≤ s.stats.money →
      (handleUpgrade s).stats.money
        = s.stats.money
          - ((upgradeCost (BUILDINGS tile.buildingType).cost (levelOrOne tile.level) : ℤ) : ℚ) ∧
      getTile (handleUpgrade s).grid x y
        = some { tile with level := levelOrOne tile.level + 1 }) := by
  constructor
  · intro hlt
    simp only [handleUpgrade, hsel, ht]
    rw [if_neg (not_le.mpr hlt)]
  · intro hle
    have hred : handleUpgrade s
        = { s with
            stats := { s.stats with money := s.stats.money
              - ((upgradeCost (BUILDINGS tile.buildingType).cost (levelOrOne tile.level) : ℤ) : ℚ) }
            grid := setTile s.grid x y { tile with level := levelOrOne tile.level + 1 } } := by
      simp only [handleUpgrade, hsel, ht]
      rw [if_pos hle]
    rw [hred]
    exact ⟨rfl, getTile_setTile s.grid x y _ (by rw [ht]; rfl)⟩

def residL2 : Tile :=
  { x := 0, y := 0, buildingType := BuildingType.residential, level := 2 }

def sResid225 : ClickState :=
  { grid := [[residL2]]
    stats := { money := 225, population := 0, day := 1 }
    selectedTilePos := some (0, 0) }

/-- C5 witness: upgrading a level-2 Residential with money exactly 225
succeeds, deducts 225 (floor(100·1.5²)), and raises the level to 3. -/
theorem c5_amended_witness :
    (handleUpgrade sResid225).stats.money = 0 ∧
    getTile (handleUpgrade sResid225).grid 0 0
      = some { residL2 with level := 3 } := by
  have hcost : ((upgradeCost (BUILDINGS residL2.buildingType).cost
      (levelOrOne residL2.level) : ℤ) : ℚ) = 225 := by
    norm_num [upgradeCost, residL2, BUILDINGS, levelOrOne]
  have h := (c5_amended sResid225 0 0 residL2 rfl rfl).2
    (by rw [hcost]; norm_num [sResid225])
  refine ⟨?_, ?_⟩
  · rw [h.1, hcost]
    norm_num [sResid225]
  · have := h.2
    simpa [residL2, levelOrOne] using this

-- ---------------------------------------------------------------------
-- C6
-- ---------------------------------------------------------------------

/-- C6: voting festival sets growthRate to 2.0 AND deducts exactly 500
in the same action with no affordability gate (the result may be
negative); tax_break sets taxRate to 1.2, population_boom sets
growthRate to 1.5, austerity sets both rates to 0.8, each an
overwrite; the proposal slot is cleared immediately in every case; with
no active proposal the vote call is a no-op. -/
theorem c6_vote (s : VoteState) (i : ℕ) :
    (s.activeProposal = Option.none → handleVote i s = some s) ∧
    (∀ opts choice, s.activeProposal = some opts → opts[i]? = some choice →
      ∃ s1, handleVote i s = some s1 ∧ s1.activeProposal = Option.none ∧
        (choice = EffectType.festival →
          s1.stats.money = s.stats.money - 500 ∧ s1.mods.growthRate = 2 ∧
          s1.mods.taxRate = s.mods.taxRate ∧
          s1.stats.population = s.stats.population) ∧
        (choice = EffectType.tax_break →
          s1.mods.taxRate = 12 / 10 ∧ s1.mods.growthRate = s.mods.growthRate ∧
          s1.stats = s.stats) ∧
        (choice = EffectType.population_boom →
          s1.mods.growthRate = 15 / 10 ∧ s1.mods.taxRate = s.mods.taxRate ∧
          s1.stats = s.stats) ∧
        (choice = EffectType.austerity →
          s1.mods.taxRate = 8 / 10 ∧ s1.mods.growthRate = 8 / 10 ∧
          s1.stats = s.stats)) := by
  constructor
  · intro h
    simp [handleVote, h]
  · intro opts choice hprop hopt
    cases choice with
    | tax_break =>
      refine ⟨{ s with
                  mods := { s.mods with taxRate := 12 / 10 },
                  activeProposal := Option.none },
        by simp [handleVote, hprop, hopt], rfl, ?_, ?_, ?_, ?_⟩ <;> intro hc
      · nomatch hc
      · exact ⟨rfl, rfl, rfl⟩
      · nomatch hc
      · nomatch hc
    | population_boom =>
      refine ⟨{ s with
                  mods := { s.mods with growthRate := 15 / 10 },
                  activeProposal := Option.none },
        by simp [handleVote, hprop, hopt], rfl, ?_, ?_, ?_, ?_⟩ <;> intro hc
      · nomatch hc
      · nomatch hc
      · exact ⟨rfl, rfl, rfl⟩
      · nomatch hc
    | austerity =>
      refine ⟨{ s with
                  mods := { taxRate := 8 / 10, growthRate := 8 / 10 },
                  activeProposal := Option.none },
        by simp [handleVote, hprop, hopt], rfl, ?_, ?_, ?_, ?_⟩ <;> intro hc
      · nomatch hc
      · nomatch hc
      · nomatch hc
      · exact ⟨rfl, rfl, rfl⟩
    | festival =>
      refine ⟨{ s with
                  stats := { s.stats with money := s.stats.money - 500 },
                  mods := { s.mods with growthRate := 2 },
                  activeProposal := Option.none },
        by simp [handleVote, hprop, hopt], rfl, ?_, ?_, ?_, ?_⟩ <;> intro hc
      · exact ⟨rfl, rfl, rfl, rfl⟩
      · nomatch hc
      · nomatch hc
      · nomatch hc
    | other =>
      refine ⟨{ s with activeProposal := Option.none },
        by simp [handleVote, hprop, hopt], rfl, ?_, ?_, ?_, ?_⟩ <;> intro hc <;> nomatch hc

def voteStateFest : VoteState :=
  { stats := { money := 0, population := 0, day := 1 }
    mods := { taxRate := 1, growthRate := 1 }
    activeProposal := some [EffectType.festival] }

/-- C6 witness: a festival vote from a zero treasury drives money to
-500 (no affordability gate) and sets growthRate to 2. -/
theorem c6_vote_witness :
    ∃ s1, handleVote 0 voteStateFest = some s1 ∧
      s1.stats.money = -500 ∧ s1.mods.growthRate = 2 ∧
      s1.activeProposal = Option.none := by
  obtain ⟨s1, heq, hclear, hfest, -, -, -⟩ :=
    (c6_vote voteStateFest 0).2 [EffectType.festival] EffectType.festival rfl rfl
  obtain ⟨hm, hg, -, -⟩ := hfest rfl
  refine ⟨s1, heq, ?_, hg, hclear⟩
  rw [hm]
  norm_num [voteStateFest]

-- ---------------------------------------------------------------------
-- C7
-- ---------------------------------------------------------------------

/-- C7: on a tick with the token subsystem connected, the balance grows
by `(population / 100) * 0.1` computed from the PREVIOUS tick's
population (the pre-tick stats field), the price becomes
`max(10, price + (r - 0.5) * 2)` with the perturbation in [-1, 1] so the
price never drops below 10, and the block counter increments by 1. -/
theorem c7_web3_tick (r : ℚ) (s : AppState)
    (hc : s.web3.isConnected = true) (h0 : 0 ≤ r) (h1 : r < 1) :
    (appTick r s).web3.skyBalance
      = s.web3.skyBalance + (s.stats.population / 100) * (1 / 10) ∧
    (appTick r s).web3.skyPrice = max 10 (s.web3.skyPrice + (r - 1 / 2) * 2) ∧
    (-1 ≤ (r - 1 / 2) * 2 ∧ (r - 1 / 2) * 2 ≤ 1) ∧
    10 ≤ (appTick r s).web3.skyPrice ∧
    (appTick r s).web3.blockNumber = s.web3.blockNumber + 1 := by
  have hw : (appTick r s).web3 = web3Tick s.stats.population r s.web3 := rfl
  rw [hw]
  unfold web3Tick
  rw [if_pos hc]
  refine ⟨rfl, rfl, ⟨by linarith, by linarith⟩, le_max_left _ _, rfl⟩

def web3Conn : Web3State :=
  { isConnected := true, hasAddress := true, skyBalance := 100,
    stakedSky := 0, skyPrice := 50, blockNumber := 1024500 }

def appConn : AppState :=
  { grid := [], stats := { money := 1000, population := 200, day := 3 },
    mods := mods1, goal := Option.none, aiEnabled := true, web3 := web3Conn }

/-- C7 witness: the tick at population 200 mines 0.2 SKY from the
previous population and advances the block counter to 1024501. -/
theorem c7_web3_tick_witness :
    (appTick (1 / 2) appConn).web3.skyBalance
        = appConn.web3.skyBalance + (appConn.stats.population / 100) * (1 / 10) ∧
    (appTick (1 / 2) appConn).web3.blockNumber = appConn.web3.blockNumber + 1 := by
  have h := c7_web3_tick (1 / 2) appConn rfl (by norm_num) (by norm_num)
  exact ⟨h.1, h.2.2.2.2⟩

-- ---------------------------------------------------------------------
-- C8
-- ---------------------------------------------------------------------

/-- C8: demolition (bulldoze tool on a tile): on an already-empty tile a
complete no-op (state, hence grid and money, unchanged); on an occupied
tile a no-op unless `money ≥ 5`; on success deducts exactly 5 and resets
the tile to buildingType None, level 1. -/
theorem c8_demolish (s : ClickState) (x y : ℕ) (tile : Tile)
    (hx : x < GRID_SIZE) (hy : y < GRID_SIZE)
    (ht : getTile s.grid x y = some tile) :
    (tile.buildingType = BuildingType.none →
      handleTileClick BuildingType.none x y s = s) ∧
    (tile.buildingType ≠ BuildingType.none → s.stats.money < 5 →
      handleTileClick BuildingType.none x y s = s) ∧
    (tile.buildingType ≠ BuildingType.none → 5 ≤ s.stats.money →
      (handleTileClick BuildingType.none x y s).stats.money = s.stats.money - 5 ∧
      getTile (handleTileClick BuildingType.none x y s).grid x y
        = some { tile with buildingType := BuildingType.none, level := 1 }) := by
  have hb : ¬ (x ≥ GRID_SIZE ∨ y ≥ GRID_SIZE) := by omega
  refine ⟨?_, ?_, ?_⟩
  · intro h0
    simp [handleTileClick, hb, ht, h0]
  · intro h0 hm
    simp [handleTileClick, hb, ht, h0, not_le.mpr hm]
  · intro h0 hm
    have hred : handleTileClick BuildingType.none x y s
        = { grid := setTile s.grid x y
              { tile with buildingType := BuildingType.none, level := 1 }
            stats := { s.stats with money := s.stats.money - 5 }
            selectedTilePos :=
              if s.selectedTilePos = some (x, y) then Option.none
              else s.selectedTilePos } := by
      simp [handleTileClick, hb, ht, h0, hm]
    rw [hred]
    exact ⟨rfl, getTile_setTile s.grid x y _ (by rw [ht]; rfl)⟩

def roadTile00 : Tile :=
  { x := 0, y := 0, buildingType := BuildingType.road, level := 1 }

def sRoad : ClickState :=
  { grid := [[roadTile00]]
    stats := { money := 10, population := 0, day := 1 }
    selectedTilePos := Option.none }

/-- C8 witness: bulldozing a Road with money 10 deducts 5 and resets the
tile to None at level 1. -/
theorem c8_demolish_witness :
    (handleTileClick BuildingType.none 0 0 sRoad).stats.money = 5 ∧
    getTile (handleTileClick BuildingType.none 0 0 sRoad).grid 0 0
      = some { roadTile00 with buildingType := BuildingType.none, level := 1 } := by
  have h := (c8_demolish sRoad 0 0 roadTile00
      (by norm_num [GRID_SIZE]) (by norm_num [GRID_SIZE]) rfl).2.2
      (by simp [roadTile00]) (by norm_num [sRoad])
  refine ⟨?_, h.2⟩
  rw [h.1]
  norm_num [sRoad]

-- ---------------------------------------------------------------------
-- C9
-- ---------------------------------------------------------------------

/-- C9: clicking an occupied non-Road tile with a non-bulldoze tool is a
pure selection: the only change is `selectedTilePos`; in particular the
money and the whole grid (so the clicked tile's buildingType and level)
are unchanged. -/
theorem c9_selection (s : ClickState) (tool : BuildingType) (x y : ℕ) (tile : Tile)
    (hx : x < GRID_SIZE) (hy : y < GRID_SIZE)
    (ht : getTile s.grid x y = some tile)
    (htool : tool ≠ BuildingType.none)
    (hocc : tile.buildingType ≠ BuildingType.none)
    (hroad : tile.buildingType ≠ BuildingType.road) :
    handleTileClick tool x y s = { s with selectedTilePos := some (x, y) } := by
  have hb : ¬ (x ≥ GRID_SIZE ∨ y ≥ GRID_SIZE) := by omega
  simp [handleTileClick, hb, ht, htool, hocc, hroad]

def shopTile00 : Tile :=
  { x := 0, y := 0, buildingType := BuildingType.commercial, level := 1 }

def sShop : ClickState :=
  { grid := [[shopTile00]]
    stats := { money := 77, population := 0, day := 1 }
    selectedTilePos := Option.none }

/-- C9 witness: clicking a Commercial tile with the Road tool selected
only selects it; stats and grid are untouched. -/
theorem c9_selection_witness :
    handleTileClick BuildingType.road 0 0 sShop
      = { sShop with selectedTilePos := some (0, 0) } :=
  c9_selection sShop BuildingType.road 0 0 shopTile00
    (by norm_num [GRID_SIZE]) (by norm_num [GRID_SIZE]) rfl
    (by simp) (by simp [shopTile00]) (by simp [shopTile00])

-- ---------------------------------------------------------------------
-- C10
-- ---------------------------------------------------------------------

/-- C10: for nonnegative amounts, stake and unstake preserve
`skyBalance + stakedSky` exactly and touch none of the other token
fields; under their availability checks both fields stay nonnegative;
an underfunded stake or unstake is a complete no-op. -/
theorem c10_stake_unstake (amount : ℚ) (w : Web3State)
    (hamt : 0 ≤ amount) (hb : 0 ≤ w.skyBalance) (hs : 0 ≤ w.stakedSky) :
    (handleStake amount w).skyBalance + (handleStake amount w).stakedSky
      = w.skyBalance + w.stakedSky ∧
    (handleUnstake amount w).skyBalance + (handleUnstake amount w).stakedSky
      = w.skyBalance + w.stakedSky ∧
    (0 ≤ (handleStake amount w).skyBalance ∧
      0 ≤ (handleStake amount w).stakedSky) ∧
    (0 ≤ (handleUnstake amount w).skyBalance ∧
      0 ≤ (handleUnstake amount w).stakedSky) ∧
    ((handleStake amount w).isConnected = w.isConnected ∧
      (handleStake amount w).hasAddress = w.hasAddress ∧
      (handleStake amount w).skyPrice = w.skyPrice ∧
      (handleStake amount w).blockNumber = w.blockNumber) ∧
    ((handleUnstake amount w).isConnected = w.isConnected ∧
      (handleUnstake amount w).hasAddress = w.hasAddress ∧
      (handleUnstake amount w).skyPrice = w.skyPrice ∧
      (handleUnstake amount w).blockNumber = w.blockNumber) ∧
    (w.skyBalance < amount → handleStake amount w = w) ∧
    (w.stakedSky < amount → handleUnstake amount w = w) := by
  refine ⟨?_, ?_, ⟨?_, ?_⟩, ⟨?_, ?_⟩, ⟨?_, ?_, ?_, ?_⟩, ⟨?_, ?_, ?_, ?_⟩, ?_, ?_⟩
  · unfold handleStake
    split_ifs with h
    · simp
    · rfl
  · unfold handleUnstake
    split_ifs with h
    · simp
    · rfl
  · unfold handleStake
    split_ifs with h
    · simp
      linarith
    · exact hb
  · unfold handleStake
    split_ifs with h
    · simp
      linarith
    · exact hs
  · unfold handleUnstake
    split_ifs with h
    · simp
      linarith
    · exact hb
  · unfold handleUnstake
    split_ifs with h
    · simp
      linarith
    · exact hs
  · unfold handleStake
    split_ifs <;> rfl
  · unfold handleStake
    split_ifs <;> rfl
  · unfold handleStake
    split_ifs <;> rfl
  · unfold handleStake
    split_ifs <;> rfl
  · unfold handleUnstake
    split_ifs <;> rfl
  · unfold handleUnstake
    split_ifs <;> rfl
  · unfold handleUnstake
    split_ifs <;> rfl
  · unfold handleUnstake
    split_ifs <;> rfl
  · intro h
    unfold handleStake
    rw [if_neg (not_le.mpr h)]
  · intro h
    unfold handleUnstake
    rw [if_neg (not_le.mpr h)]

def web3Rich : Web3State :=
  { isConnected := true, hasAddress := true, skyBalance := 100,
    stakedSky := 7, skyPrice := 50, blockNumber := 42 }

/-- C10 witness: staking 40 out of a balance of 100 with 7 staked. -/
theorem c10_stake_unstake_witness :
    (handleStake 40 web3Rich).skyBalance + (handleStake 40 web3Rich).stakedSky
      = web3Rich.skyBalance + web3Rich.stakedSky ∧
    0 ≤ (handleStake 40 web3Rich).skyBalance := by
  have h := c10_stake_unstake 40 web3Rich (by norm_num)
    (by norm_num [web3Rich]) (by norm_num [web3Rich])
  exact ⟨h.1, h.2.2.1.1⟩

end SkyLand
